import Mathlib

/-
Shallow embedding of the servicedesk-proxy repository (TypeScript):
  src/routes/servicedesk.ts   - ticket normalization and request filtering
  src/lib/servicedeskClient.ts - retry wrapper and paginated fetchers
JavaScript objects are modelled as association lists of (key, value) pairs
queried by first match; JavaScript numbers are modelled as integers together
with an explicit NaN marker (the timestamps and bounds occurring here are
integral epoch-millisecond values).
-/

namespace ServicedeskProxy

/-- JavaScript number: an integer or NaN (no non-integral values occur in the
claims' data: epoch milliseconds are integral). -/
inductive JNum where
  | nan
  | int (n : Int)
deriving DecidableEq

/-- JavaScript runtime value as it occurs in upstream ticket JSON. -/
inductive Val where
  | undefVal
  | null
  | bool (b : Bool)
  | num (n : JNum)
  | str (s : String)
  | obj (fields : List (String × Val))

/-- JavaScript String.prototype.toLowerCase restricted to the ASCII range
(the only characters occurring in this codebase's data). -/
def strToLower (s : String) : String := ⟨s.data.map Char.toLower⟩

/-- JavaScript String.prototype.trim: strip leading and trailing whitespace. -/
def strTrim (s : String) : String :=
  ⟨((s.data.dropWhile Char.isWhitespace).reverse.dropWhile Char.isWhitespace).reverse⟩

/-- Property lookup on an object's field list: first matching key, missing
keys give undefined (JavaScript member access on an object). -/
def getField : List (String × Val) → String → Val
  | [], _ => .undefVal
  | p :: ps, key => if p.1 == key then p.2 else getField ps key

/-- Optional-chaining member access v?.key: null and undefined (and primitive
receivers, which own none of the keys used here) give undefined. -/
def optMember : Val → String → Val
  | .obj fields, key => getField fields key
  | _, _ => .undefVal

/-- The JavaScript nullish-coalescing operator a ?? b. -/
def nullish (a b : Val) : Val :=
  match a with
  | .undefVal => b
  | .null => b
  | _ => a

/-- The safeString helper of normalizeTicket in src/routes/servicedesk.ts:
typeof value === 'string' ? value : fallback. -/
def safeString (value : Val) (fallback : String) : String :=
  match value with
  | .str s => s
  | _ => fallback

/-- Object-spread overwrite obj[key] = v as performed by the literal
spread-then-override in normalizeTicket: the first existing entry for the key
is replaced in place, a fresh key is appended. -/
def setField : List (String × Val) → String → Val → List (String × Val)
  | [], key, v => [(key, v)]
  | p :: ps, key, v =>
    if p.1 == key then (key, v) :: ps
    else p :: setField ps key v

/-- normalizeTicket from src/routes/servicedesk.ts lines 46-79: spreads the
raw ticket and overwrites the five display fields, the three extracted string
fields and the synthesized description/text/summary fields. -/
def normalizeTicket (ticket : List (String × Val)) : List (String × Val) :=
  let subject := safeString (getField ticket "subject") ""
  let shortDescription := safeString (getField ticket "short_description") ""
  let group := safeString (nullish (optMember (getField ticket "group") "name") (getField ticket "group")) ""
  let description := strTrim (subject ++ " " ++ shortDescription ++ " " ++ group)
  let r1 := setField ticket "status"
    (.str (safeString (nullish (optMember (getField ticket "status") "name") (getField ticket "status")) "Unknown"))
  let r2 := setField r1 "priority"
    (.str (safeString (nullish (optMember (getField ticket "priority") "name") (getField ticket "priority")) "Unspecified"))
  let r3 := setField r2 "requester"
    (.str (safeString (nullish (optMember (getField ticket "requester") "name") (getField ticket "requester")) "Unknown"))
  let r4 := setField r3 "technician"
    (.str (safeString (nullish (optMember (getField ticket "technician") "name") (getField ticket "technician")) "Unassigned"))
  let r5 := setField r4 "created_by"
    (.str (safeString (nullish (optMember (getField ticket "created_by") "name") (getField ticket "created_by")) "System"))
  let r6 := setField r5 "subject" (.str subject)
  let r7 := setField r6 "short_description" (.str shortDescription)
  let r8 := setField r7 "group" (.str group)
  let r9 := setField r8 "description" (.str description)
  let r10 := setField r9 "text" (.str description)
  let r11 := setField r10 "summary" (.str description)
  r11

/-- The normalize helper of src/routes/servicedesk.ts lines 94-96:
(text || '').toLowerCase().trim(), typed text?: string as in the source. -/
def normalize (text : Option String) : String :=
  strTrim (strToLower (text.getD ""))

/-- EXCLUDED_TECHNICIANS from src/routes/servicedesk.ts line 98. -/
def EXCLUDED_TECHNICIANS : List String := ["kristian m matias"]

/-- Bridge from the untyped ticket?.technician?.name value to the string?
parameter of normalize: a string passes through, a nullish value is absent.
Truthy non-string names (on which the source would raise a TypeError inside
normalize) are outside the model. -/
def asOptString : Val → Option String
  | .str s => some s
  | _ => none

/-- isNotExcluded from src/routes/servicedesk.ts lines 106-109. -/
def isNotExcluded (ticket : Val) : Bool :=
  let techName := normalize (asOptString (optMember (optMember ticket "technician") "name"))
  techName == "" || !(EXCLUDED_TECHNICIANS.contains techName)

/-- Decimal-digit string to Nat, none if empty or any non-digit. -/
def parseNatString (t : String) : Option Nat :=
  if t ≠ "" ∧ t.all Char.isDigit then
    some (t.foldl (fun acc c => acc * 10 + (c.toNat - 48)) 0)
  else none

/-- Optionally signed decimal-integer string to Int. -/
def parseIntString (t : String) : Option Int :=
  if t.startsWith "-" then (parseNatString (t.drop 1)).map (fun n => -(n : Int))
  else (parseNatString t).map (fun n => (n : Int))

/-- Models the JavaScript Number() coercion on the value shapes occurring in
this codebase: undefined and plain objects give NaN, null and the empty or
all-whitespace string give 0, booleans give 0/1, numbers pass through, and a
string of an optional sign and decimal digits parses to that integer (other
strings give NaN; fractional and exotic literals do not occur here). -/
def jsNumber : Val → JNum
  | .undefVal => .nan
  | .null => .int 0
  | .bool b => .int (if b then 1 else 0)
  | .num n => n
  | .str s =>
    let t := strTrim s
    if t = "" then .int 0
    else
      match parseIntString t with
      | some n => .int n
      | none => .nan
  | .obj _ => .nan

/-- Comparison a >= b on JavaScript numbers: false whenever either side is NaN. -/
def JNum.jge : JNum → JNum → Bool
  | .int a, .int b => decide (b ≤ a)
  | _, _ => false

/-- Comparison a <= b on JavaScript numbers: false whenever either side is NaN. -/
def JNum.jle : JNum → JNum → Bool
  | .int a, .int b => decide (a ≤ b)
  | _, _ => false

/-- Truthiness of the optional numeric bounds of isInDateRange: undefined,
NaN and 0 are falsy, every other number is truthy. -/
def truthyNum : Option JNum → Bool
  | none => false
  | some .nan => false
  | some (.int n) => decide (n ≠ 0)

/-- isInDateRange from src/routes/servicedesk.ts lines 100-104:
if (!from || !to) return true; then inclusive comparison of
Number(ticket?.created_time?.value) against both bounds. -/
def isInDateRange (ticket : Val) (fromMs toMs : Option JNum) : Bool :=
  if !(truthyNum fromMs) || !(truthyNum toMs) then true
  else
    let created := jsNumber (optMember (optMember ticket "created_time") "value")
    created.jge (fromMs.getD .nan) && created.jle (toMs.getD .nan)

/-- An HTTP response as seen by fetchWithRetry's caller: the ok flag, the
numeric status and the status text (the only parts the fetchers consult). -/
structure HttpResponse where
  ok : Bool
  status : Nat
  statusText : String
deriving DecidableEq

/-- Outcome of one fetch() attempt: a resolved response, or a rejection with
the error's name and message (name "AbortError" is the timeout abort). -/
inductive AttemptOutcome where
  | success (response : HttpResponse)
  | failure (errName : String) (errMsg : String)
deriving DecidableEq

/-- Loop body of fetchWithRetry (src/lib/servicedeskClient.ts lines 34-72):
for (attempt = 0; attempt <= retries; attempt++). The remaining parameter
counts the iterations still allowed (retries + 1 - attempt); the result pairs
the outcome with the number of fetch calls actually issued. A success returns
the response as-is (even a non-2xx one); an AbortError throws the timeout
error at once; any other error is kept as lastError and the loop continues;
an exhausted loop throws lastError (or the generic message). -/
def goRetry (attempts : Nat → AttemptOutcome) (timeoutMs : Nat) :
    Nat → Nat → Option String → Except String HttpResponse × Nat
  | attempt, 0, lastError => (.error (lastError.getD "Request failed after retries"), attempt)
  | attempt, remaining + 1, _ =>
    match attempts attempt with
    | .success r => (.ok r, attempt + 1)
    | .failure nm msg =>
      if nm == "AbortError" then
        (.error ("Request timeout after " ++ toString timeoutMs ++ "ms"), attempt + 1)
      else
        goRetry attempts timeoutMs (attempt + 1) remaining (some msg)

/-- fetchWithRetry from src/lib/servicedeskClient.ts lines 34-72, with the
per-attempt fetch outcomes supplied as an oracle indexed by attempt number.
The backoff sleep and the retry log are I/O without effect on the result. -/
def fetchWithRetry (attempts : Nat → AttemptOutcome) (retries timeoutMs : Nat) :
    Except String HttpResponse × Nat :=
  goRetry attempts timeoutMs 0 (retries + 1) none

/-- Normalized account shape used internally (servicedeskClient.ts). -/
structure NormalizedAccount where
  externalId : String
  name : Option String
  site : Option String
  isActive : Bool
deriving DecidableEq

/-- A nested name-carrying object such as site or status of an account. -/
structure NameRef where
  name : Option String
deriving DecidableEq

/-- Raw upstream account record (ServiceDeskAccount interface): all fields
optional, id already a string per the interface. -/
structure ServiceDeskAccount where
  id : Option String
  name : Option String
  site : Option NameRef
  status : Option NameRef
deriving DecidableEq

/-- normalizeAccount from src/lib/servicedeskClient.ts lines 86-93. -/
def normalizeAccount (account : ServiceDeskAccount) : NormalizedAccount :=
  { externalId := account.id.getD ""
    name := account.name
    site := account.site.bind (fun s => s.name)
    isActive := (account.status.bind (fun s => s.name)).map strToLower == some "active" }

/-- list_info of an upstream page response. -/
structure PageListInfo where
  has_more_rows : Option Bool
deriving DecidableEq

/-- Parsed JSON body and HTTP status of one accounts page: response.ok and
statusText, data.accounts (some when present and an array) and
data.list_info. -/
structure AccountsPage where
  ok : Bool
  status : Nat
  statusText : String
  accounts : Option (List ServiceDeskAccount)
  list_info : Option PageListInfo
deriving DecidableEq

/-- The check data.list_info?.has_more_rows === true. -/
def hasMoreRows (page : AccountsPage) : Bool :=
  (page.list_info.bind (fun li => li.has_more_rows)) == some true

/-- The accounts contributed by one page: data.accounts mapped through
normalizeAccount when it is an array, nothing otherwise. -/
def pageAccounts (page : AccountsPage) : List NormalizedAccount :=
  match page.accounts with
  | some l => l.map normalizeAccount
  | none => []

/-- The list_info object serialized into the input_data query parameter for
one accounts page request (src/lib/servicedeskClient.ts lines 105-112). -/
structure PageRequest where
  row_count : Nat
  start_index : Nat
  sort_field : String
  sort_order : String
deriving DecidableEq

/-- The accounts page request issued for a given page number: row_count 100,
start_index (page - 1) * 100 + 1, sorted by name ascending. -/
def reqFor (page : Nat) : PageRequest :=
  ⟨100, (page - 1) * 100 + 1, "name", "asc"⟩

/-- Loop body of fetchAllAccounts (src/lib/servicedeskClient.ts lines
96-162): while (hasMore && page <= maxPages). The remaining parameter counts
the pages still inside the cap (maxPages + 1 - page). The result pairs the
outcome (accumulated normalized accounts, or the thrown non-2xx error) with
the page requests issued. -/
def goAccounts (upstream : Nat → AccountsPage) :
    Nat → Nat → Bool → List NormalizedAccount → List PageRequest →
    Except String (List NormalizedAccount) × List PageRequest
  | _, _, false, acc, reqs => (.ok acc, reqs)
  | _, 0, true, acc, reqs => (.ok acc, reqs)
  | page, remaining + 1, true, acc, reqs =>
    let resp := upstream page
    if resp.ok then
      goAccounts upstream (page + 1) remaining (hasMoreRows resp)
        (acc ++ pageAccounts resp) (reqs ++ [reqFor page])
    else
      (.error ("ServiceDesk API returned " ++ toString resp.status ++ ": " ++ resp.statusText),
       reqs ++ [reqFor page])

/-- fetchAllAccounts from src/lib/servicedeskClient.ts lines 96-162, with the
per-page upstream responses supplied as an oracle indexed by page number
(each page request goes through fetchWithRetry; the oracle is the response it
returns). The loop starts at page 1 with hasMore = true. -/
def fetchAllAccounts (upstream : Nat → AccountsPage) (maxPages : Nat) :
    Except String (List NormalizedAccount) × List PageRequest :=
  goAccounts upstream 1 maxPages true [] []

/-- Parsed JSON body and HTTP status of one requests page: data.requests
(some when present, the ?? [] fallback applies otherwise) and data.list_info. -/
structure RequestsPage where
  ok : Bool
  status : Nat
  statusText : String
  requests : Option (List Val)
  list_info : Option PageListInfo

/-- The check data.list_info?.has_more_rows === true for a requests page. -/
def hasMoreRowsReq (page : RequestsPage) : Bool :=
  (page.list_info.bind (fun li => li.has_more_rows)) == some true

/-- Loop body of fetchAllRequests (src/lib/servicedeskClient.ts lines
302-347): while (hasMore), startIndex += 100 each iteration. The source loop
is unbounded, so the model carries a fuel bound; none means the fuel ran out
while the upstream still reported more rows (the source would keep looping). -/
def goRequests (upstream : Nat → RequestsPage) :
    Nat → Nat → Bool → List Val → Option (Except String (List Val))
  | _, _, false, acc => some (.ok acc)
  | _, 0, true, _ => none
  | startIndex, fuel + 1, true, acc =>
    let resp := upstream startIndex
    if resp.ok then
      goRequests upstream (startIndex + 100) fuel (hasMoreRowsReq resp)
        (acc ++ resp.requests.getD [])
    else
      some (.error ("Requests fetch failed: " ++ resp.statusText))

/-- fetchAllRequests from src/lib/servicedeskClient.ts lines 302-347, with
the per-page upstream responses supplied as an oracle indexed by start_index.
The loop starts at startIndex 1 with hasMore = true. -/
def fetchAllRequests (upstream : Nat → RequestsPage) (fuel : Nat) :
    Option (Except String (List Val)) :=
  goRequests upstream 1 fuel true []

/-- Outcome of the accounts sync route: HTTP status, number of upstream page
requests issued, and the synced count on success. -/
structure SyncOutcome where
  httpStatus : Nat
  upstreamCalls : Nat
  synced : Option Nat
deriving DecidableEq

/-- Modelled from the spec: the POST /accounts/sync route handler is not
among the provided source files (only the spec and README describe it). Per
the spec it requires an exact match of the x-admin-sync-key header against
the configured admin key; on mismatch or absence it returns 401 without
calling upstream; on success it fetches all accounts (default cap 10 pages)
and reports the synced count. -/
def accountsSyncHandler (adminKey : String) (headerKey : Option String)
    (upstream : Nat → AccountsPage) : SyncOutcome :=
  if headerKey == some adminKey then
    let r := fetchAllAccounts upstream 10
    match r.1 with
    | .ok accs => ⟨200, r.2.length, some accs.length⟩
    | .error _ => ⟨500, r.2.length, none⟩
  else ⟨401, 0, none⟩

/-- Pages page, page+1, ..., page+n-1. -/
def pageRange : Nat → Nat → List Nat
  | _, 0 => []
  | s, n + 1 => s :: pageRange (s + 1) n

/-- The accounts accumulated from pages page..page+n-1 of the oracle. -/
def expectedAccounts (upstream : Nat → AccountsPage) : Nat → Nat → List NormalizedAccount
  | _, 0 => []
  | page, n + 1 => pageAccounts (upstream page) ++ expectedAccounts upstream (page + 1) n

theorem getField_setField_self (fs : List (String × Val)) (k : String) (v : Val) :
    getField (setField fs k v) k = v := by
  induction fs with
  | nil => simp [setField, getField]
  | cons p ps ih =>
    by_cases h : p.1 = k
    · simp [setField, getField, h]
    · simp [setField, getField, h, ih]

theorem getField_setField_ne (fs : List (String × Val)) (k k' : String) (v : Val)
    (h : k' ≠ k) : getField (setField fs k v) k' = getField fs k' := by
  induction fs with
  | nil => simp [setField, getField, Ne.symm h]
  | cons p ps ih =>
    by_cases hp : p.1 = k
    · simp [setField, getField, hp, Ne.symm h]
    · by_cases hp' : p.1 = k'
      · simp [setField, getField, hp, hp', h]
      · simp [setField, getField, hp, hp', ih]

theorem getField_normalizeTicket_status (t : List (String × Val)) :
    getField (normalizeTicket t) "status" =
      .str (safeString (nullish (optMember (getField t "status") "name") (getField t "status")) "Unknown") := by
  simp [normalizeTicket, getField_setField_ne, getField_setField_self]

theorem getField_normalizeTicket_priority (t : List (String × Val)) :
    getField (normalizeTicket t) "priority" =
      .str (safeString (nullish (optMember (getField t "priority") "name") (getField t "priority")) "Unspecified") := by
  simp [normalizeTicket, getField_setField_ne, getField_setField_self]

theorem getField_normalizeTicket_requester (t : List (String × Val)) :
    getField (normalizeTicket t) "requester" =
      .str (safeString (nullish (optMember (getField t "requester") "name") (getField t "requester")) "Unknown") := by
  simp [normalizeTicket, getField_setField_ne, getField_setField_self]

theorem getField_normalizeTicket_technician (t : List (String × Val)) :
    getField (normalizeTicket t) "technician" =
      .str (safeString (nullish (optMember (getField t "technician") "name") (getField t "technician")) "Unassigned") := by
  simp [normalizeTicket, getField_setField_ne, getField_setField_self]

theorem getField_normalizeTicket_created_by (t : List (String × Val)) :
    getField (normalizeTicket t) "created_by" =
      .str (safeString (nullish (optMember (getField t "created_by") "name") (getField t "created_by")) "System") := by
  simp [normalizeTicket, getField_setField_ne, getField_setField_self]

theorem getField_normalizeTicket_description (t : List (String × Val)) :
    getField (normalizeTicket t) "description" =
      .str (strTrim (safeString (getField t "subject") "" ++ " " ++
             safeString (getField t "short_description") "" ++ " " ++
             safeString (nullish (optMember (getField t "group") "name") (getField t "group")) "")) := by
  simp [normalizeTicket, getField_setField_ne, getField_setField_self]

theorem getField_normalizeTicket_text (t : List (String × Val)) :
    getField (normalizeTicket t) "text" =
      .str (strTrim (safeString (getField t "subject") "" ++ " " ++
             safeString (getField t "short_description") "" ++ " " ++
             safeString (nullish (optMember (getField t "group") "name") (getField t "group")) "")) := by
  simp [normalizeTicket, getField_setField_ne, getField_setField_self]

theorem getField_normalizeTicket_summary (t : List (String × Val)) :
    getField (normalizeTicket t) "summary" =
      .str (strTrim (safeString (getField t "subject") "" ++ " " ++
             safeString (getField t "short_description") "" ++ " " ++
             safeString (nullish (optMember (getField t "group") "name") (getField t "group")) "")) := by
  simp [normalizeTicket, getField_setField_ne, getField_setField_self]

theorem coerce_str (s fb : String) :
    safeString (nullish (optMember (.str s) "name") (.str s)) fb = s := rfl

theorem coerce_obj (fs : List (String × Val)) (s fb : String)
    (h : getField fs "name" = .str s) :
    safeString (nullish (optMember (.obj fs) "name") (.obj fs)) fb = s := by
  simp [optMember, h, nullish, safeString]

theorem coerce_other (v : Val) (fb : String)
    (h1 : ∀ s, v ≠ .str s)
    (h2 : ∀ fs s, ¬(v = .obj fs ∧ getField fs "name" = .str s)) :
    safeString (nullish (optMember v "name") v) fb = fb := by
  match v with
  | .undefVal => rfl
  | .null => rfl
  | .bool b => rfl
  | .num n => rfl
  | .str s => exact absurd rfl (h1 s)
  | .obj fs =>
    cases hw : getField fs "name" with
    | undefVal => simp [optMember, hw, nullish, safeString]
    | null => simp [optMember, hw, nullish, safeString]
    | bool b => simp [optMember, hw, nullish, safeString]
    | num n => simp [optMember, hw, nullish, safeString]
    | str s => exact absurd ⟨rfl, hw⟩ (h2 fs s)
    | obj gs => simp [optMember, hw, nullish, safeString]

/-- C1: normalizeTicket coerces each of the five display fields (status,
priority, requester, technician, created_by) by the same scheme: a plain
string value is left unchanged; an object whose name sub-field is a string
yields that string; in every other case (field absent, or neither a string
nor an object with a string name) the field's fallback string is produced:
"Unknown" for status, "Unspecified" for priority, "Unknown" for requester,
"Unassigned" for technician, "System" for created_by. -/
theorem claim_C1_display_field_coercion (t : List (String × Val)) :
    ((∀ s, getField t "status" = Val.str s →
        getField (normalizeTicket t) "status" = Val.str s) ∧
     (∀ fs s, getField t "status" = Val.obj fs → getField fs "name" = Val.str s →
        getField (normalizeTicket t) "status" = Val.str s) ∧
     ((∀ s, getField t "status" ≠ Val.str s) →
      (∀ fs s, ¬(getField t "status" = Val.obj fs ∧ getField fs "name" = Val.str s)) →
        getField (normalizeTicket t) "status" = Val.str "Unknown")) ∧
    ((∀ s, getField t "priority" = Val.str s →
        getField (normalizeTicket t) "priority" = Val.str s) ∧
     (∀ fs s, getField t "priority" = Val.obj fs → getField fs "name" = Val.str s →
        getField (normalizeTicket t) "priority" = Val.str s) ∧
     ((∀ s, getField t "priority" ≠ Val.str s) →
      (∀ fs s, ¬(getField t "priority" = Val.obj fs ∧ getField fs "name" = Val.str s)) →
        getField (normalizeTicket t) "priority" = Val.str "Unspecified")) ∧
    ((∀ s, getField t "requester" = Val.str s →
        getField (normalizeTicket t) "requester" = Val.str s) ∧
     (∀ fs s, getField t "requester" = Val.obj fs → getField fs "name" = Val.str s →
        getField (normalizeTicket t) "requester" = Val.str s) ∧
     ((∀ s, getField t "requester" ≠ Val.str s) →
      (∀ fs s, ¬(getField t "requester" = Val.obj fs ∧ getField fs "name" = Val.str s)) →
        getField (normalizeTicket t) "requester" = Val.str "Unknown")) ∧
    ((∀ s, getField t "technician" = Val.str s →
        getField (normalizeTicket t) "technician" = Val.str s) ∧
     (∀ fs s, getField t "technician" = Val.obj fs → getField fs "name" = Val.str s →
        getField (normalizeTicket t) "technician" = Val.str s) ∧
     ((∀ s, getField t "technician" ≠ Val.str s) →
      (∀ fs s, ¬(getField t "technician" = Val.obj fs ∧ getField fs "name" = Val.str s)) →
        getField (normalizeTicket t) "technician" = Val.str "Unassigned")) ∧
    ((∀ s, getField t "created_by" = Val.str s →
        getField (normalizeTicket t) "created_by" = Val.str s) ∧
     (∀ fs s, getField t "created_by" = Val.obj fs → getField fs "name" = Val.str s →
        getField (normalizeTicket t) "created_by" = Val.str s) ∧
     ((∀ s, getField t "created_by" ≠ Val.str s) →
      (∀ fs s, ¬(getField t "created_by" = Val.obj fs ∧ getField fs "name" = Val.str s)) →
        getField (normalizeTicket t) "created_by" = Val.str "System")) := by
  refine ⟨⟨?_, ?_, ?_⟩, ⟨?_, ?_, ?_⟩, ⟨?_, ?_, ?_⟩, ⟨?_, ?_, ?_⟩, ⟨?_, ?_, ?_⟩⟩
  · intro s h
    rw [getField_normalizeTicket_status, h]
    exact congrArg Val.str (coerce_str s "Unknown")
  · intro fs s h hn
    rw [getField_normalizeTicket_status, h]
    exact congrArg Val.str (coerce_obj fs s "Unknown" hn)
  · intro h1 h2
    rw [getField_normalizeTicket_status]
    exact congrArg Val.str (coerce_other _ "Unknown" h1 h2)
  · intro s h
    rw [getField_normalizeTicket_priority, h]
    exact congrArg Val.str (coerce_str s "Unspecified")
  · intro fs s h hn
    rw [getField_normalizeTicket_priority, h]
    exact congrArg Val.str (coerce_obj fs s "Unspecified" hn)
  · intro h1 h2
    rw [getField_normalizeTicket_priority]
    exact congrArg Val.str (coerce_other _ "Unspecified" h1 h2)
  · intro s h
    rw [getField_normalizeTicket_requester, h]
    exact congrArg Val.str (coerce_str s "Unknown")
  · intro fs s h hn
    rw [getField_normalizeTicket_requester, h]
    exact congrArg Val.str (coerce_obj fs s "Unknown" hn)
  · intro h1 h2
    rw [getField_normalizeTicket_requester]
    exact congrArg Val.str (coerce_other _ "Unknown" h1 h2)
  · intro s h
    rw [getField_normalizeTicket_technician, h]
    exact congrArg Val.str (coerce_str s "Unassigned")
  · intro fs s h hn
    rw [getField_normalizeTicket_technician, h]
    exact congrArg Val.str (coerce_obj fs s "Unassigned" hn)
  · intro h1 h2
    rw [getField_normalizeTicket_technician]
    exact congrArg Val.str (coerce_other _ "Unassigned" h1 h2)
  · intro s h
    rw [getField_normalizeTicket_created_by, h]
    exact congrArg Val.str (coerce_str s "System")
  · intro fs s h hn
    rw [getField_normalizeTicket_created_by, h]
    exact congrArg Val.str (coerce_obj fs s "System" hn)
  · intro h1 h2
    rw [getField_normalizeTicket_created_by]
    exact congrArg Val.str (coerce_other _ "System" h1 h2)

/-- Witness for C1: a ticket with a plain-string status, an object priority
with a string name, and no technician field exercises all three coercion
cases at concrete inputs. -/
theorem claim_C1_witness :
    getField (normalizeTicket [("status", Val.str "Open"),
        ("priority", Val.obj [("name", Val.str "High")])]) "status" = Val.str "Open" ∧
    getField (normalizeTicket [("status", Val.str "Open"),
        ("priority", Val.obj [("name", Val.str "High")])]) "priority" = Val.str "High" ∧
    getField (normalizeTicket [("status", Val.str "Open"),
        ("priority", Val.obj [("name", Val.str "High")])]) "technician" = Val.str "Unassigned" := by
  have h := claim_C1_display_field_coercion
    [("status", Val.str "Open"), ("priority", Val.obj [("name", Val.str "High")])]
  refine ⟨h.1.1 "Open" rfl,
          h.2.1.2.1 [("name", Val.str "High")] "High" rfl rfl,
          h.2.2.2.1.2.2 ?_ ?_⟩
  · intro s hs
    simp [getField] at hs
  · intro fs s hc
    simp [getField] at hc

/-- C7: for every ticket the normalized description equals the trim of
subject, short_description and group joined by single spaces, each component
coerced to a string with empty-string fallback (group through its name
sub-field when it is a named object), and text and summary always equal
description. -/
theorem claim_C7_description_text_summary (t : List (String × Val)) :
    getField (normalizeTicket t) "description" =
      .str (strTrim (safeString (getField t "subject") "" ++ " " ++
             safeString (getField t "short_description") "" ++ " " ++
             safeString (nullish (optMember (getField t "group") "name") (getField t "group")) "")) ∧
    getField (normalizeTicket t) "text" = getField (normalizeTicket t) "description" ∧
    getField (normalizeTicket t) "summary" = getField (normalizeTicket t) "description" := by
  refine ⟨getField_normalizeTicket_description t, ?_, ?_⟩
  · rw [getField_normalizeTicket_text, getField_normalizeTicket_description]
  · rw [getField_normalizeTicket_summary, getField_normalizeTicket_description]

/-- C8: normalizeTicket maps every field outside the eleven explicitly
written ones to the same value as in the raw ticket: unknown fields are
never dropped or altered. -/
theorem claim_C8_unknown_fields_preserved (t : List (String × Val)) (key : String)
    (h : key ∉ ["status", "priority", "requester", "technician", "created_by", "subject",
                "short_description", "group", "description", "text", "summary"]) :
    getField (normalizeTicket t) key = getField t key := by
  simp only [List.mem_cons, List.not_mem_nil, or_false, not_or] at h
  obtain ⟨h1, h2, h3, h4, h5, h6, h7, h8, h9, h10, h11⟩ := h
  simp only [normalizeTicket]
  rw [getField_setField_ne _ _ _ _ h11, getField_setField_ne _ _ _ _ h10,
      getField_setField_ne _ _ _ _ h9, getField_setField_ne _ _ _ _ h8,
      getField_setField_ne _ _ _ _ h7, getField_setField_ne _ _ _ _ h6,
      getField_setField_ne _ _ _ _ h5, getField_setField_ne _ _ _ _ h4,
      getField_setField_ne _ _ _ _ h3, getField_setField_ne _ _ _ _ h2,
      getField_setField_ne _ _ _ _ h1]

/-- Witness for C8: the upstream id field survives normalization untouched. -/
theorem claim_C8_witness :
    getField (normalizeTicket [("id", Val.num (JNum.int 5))]) "id" =
      getField [("id", Val.num (JNum.int 5))] "id" :=
  claim_C8_unknown_fields_preserved _ "id" (by decide)

/-- C3: a ticket whose technician name, lower-cased and trimmed, equals
"kristian m matias" is rejected by isNotExcluded regardless of case or
surrounding whitespace in the raw value; a ticket with no technician field
always passes. -/
theorem claim_C3_technician_exclusion (t : Val) :
    (∀ s, optMember (optMember t "technician") "name" = Val.str s →
        strTrim (strToLower s) = "kristian m matias" → isNotExcluded t = false) ∧
    (optMember t "technician" = Val.undefVal → isNotExcluded t = true) := by
  constructor
  · intro s h hs
    simp [isNotExcluded, h, asOptString, normalize, EXCLUDED_TECHNICIANS, hs]
  · intro h
    simp only [isNotExcluded, h]
    decide

/-- Witness for C3: the hardcoded name in mixed case with extra whitespace is
excluded; a ticket without a technician field passes. -/
theorem claim_C3_witness :
    isNotExcluded (Val.obj [("technician", Val.obj [("name", Val.str "  KRISTIAN M Matias ")])]) = false ∧
    isNotExcluded (Val.obj [("subject", Val.str "printer broken")]) = true := by
  constructor
  · exact (claim_C3_technician_exclusion _).1 "  KRISTIAN M Matias " rfl (by decide)
  · exact (claim_C3_technician_exclusion _).2 rfl

/-- C10: whenever either bound handed to isInDateRange is falsy — absent, NaN
(an unparsable date string) or 0 (from of 1970-01-01) — the predicate accepts
every ticket: the date filter is silently disabled rather than rejecting the
request or excluding tickets. -/
theorem claim_C10_falsy_bound_disables_filter (t : Val) (fromMs toMs : Option JNum)
    (h : truthyNum fromMs = false ∨ truthyNum toMs = false) :
    isInDateRange t fromMs toMs = true := by
  rcases h with h | h <;> simp [isInDateRange, h]

/-- Witness for C10: a 0 lower bound and a NaN lower bound each let a ticket
far outside the nominal range pass. -/
theorem claim_C10_witness :
    isInDateRange (Val.obj [("created_time", Val.obj [("value", Val.num (JNum.int 1800000000999))])])
      (some (JNum.int 0)) (some (JNum.int 1706745599000)) = true ∧
    isInDateRange (Val.obj []) (some JNum.nan) (some (JNum.int 5)) = true := by
  exact ⟨claim_C10_falsy_bound_disables_filter _ _ _ (Or.inl rfl),
         claim_C10_falsy_bound_disables_filter _ _ _ (Or.inl rfl)⟩

/-- Counterexample to C2 as stated: both bounds are supplied and numeric —
from = 0 (the epoch milliseconds of 1970-01-01T00:00:00Z) and
to = 1706745599000 (2024-01-31T23:59:59Z) — and the ticket's
created_time.value 1800000000000 lies far beyond to, so the claim's iff
demands exclusion; yet isInDateRange returns true, because the 0 bound is
falsy and disables the filter entirely. -/
theorem claim_C2_counterexample :
    isInDateRange (Val.obj [("created_time", Val.obj [("value", Val.num (JNum.int 1800000000000))])])
        (some (JNum.int 0)) (some (JNum.int 1706745599000)) = true ∧
    ¬((0 : Int) ≤ 1800000000000 ∧ (1800000000000 : Int) ≤ 1706745599000) := by
  exact ⟨rfl, by decide⟩

/-- C2 (amended): for every ticket and every pair of supplied numeric bounds
that are both truthy (non-NaN handled by the JNum.int shape, and nonzero),
isInDateRange returns true iff the ticket's created_time.value coerced to a
number is an integer n with from ≤ n ≤ to inclusively; in particular a
missing or non-numeric created_time.value (which coerces to NaN) is excluded
whenever such a range is supplied. With the /requests handler's parsed UTC
day boundaries for from=2024-01-01 and to=2024-01-31, a ticket created at
2024-01-15T12:00:00Z (1705320000000) passes and one created at
2024-02-01T00:00:01Z (1706745601000) is excluded. -/
theorem claim_C2_date_range_amended :
    (∀ (t : Val) (f g : Int), f ≠ 0 → g ≠ 0 →
      (isInDateRange t (some (JNum.int f)) (some (JNum.int g)) = true ↔
        ∃ n : Int, jsNumber (optMember (optMember t "created_time") "value") = JNum.int n ∧
          f ≤ n ∧ n ≤ g)) ∧
    isInDateRange (Val.obj [("created_time", Val.obj [("value", Val.num (JNum.int 1705320000000))])])
      (some (JNum.int 1704067200000)) (some (JNum.int 1706745599000)) = true ∧
    isInDateRange (Val.obj [("created_time", Val.obj [("value", Val.num (JNum.int 1706745601000))])])
      (some (JNum.int 1704067200000)) (some (JNum.int 1706745599000)) = false := by
  refine ⟨?_, by decide, by decide⟩
  intro t f g hf hg
  simp only [isInDateRange, truthyNum, Option.getD_some]
  simp [hf, hg]
  cases hc : jsNumber (optMember (optMember t "created_time") "value") with
  | nan => simp [JNum.jge, JNum.jle]
  | int n => simp [JNum.jge, JNum.jle]

/-- Witness for C2 (amended): a ticket with no created_time at all is
excluded by the truthy 2024-01 range. -/
theorem claim_C2_witness :
    isInDateRange (Val.obj []) (some (JNum.int 1704067200000)) (some (JNum.int 1706745599000)) = false := by
  have h := claim_C2_date_range_amended.1 (Val.obj []) 1704067200000 1706745599000
    (by decide) (by decide)
  cases hb : isInDateRange (Val.obj []) (some (JNum.int 1704067200000)) (some (JNum.int 1706745599000)) with
  | false => rfl
  | true =>
    obtain ⟨n, hn, -⟩ := h.mp hb
    simp [optMember, getField, jsNumber] at hn

theorem pageRange_length : ∀ (n s : Nat), (pageRange s n).length = n
  | 0, _ => rfl
  | n + 1, s => by simp [pageRange, pageRange_length n (s + 1)]

theorem goRetry_abort_lemma (attempts : Nat → AttemptOutcome) (timeoutMs : Nat) :
    ∀ (k a rem : Nat) (lastErr : Option String), k < rem →
      (∀ j, j < k → ∃ nm msg, attempts (a + j) = .failure nm msg ∧ nm ≠ "AbortError") →
      (∃ msg, attempts (a + k) = .failure "AbortError" msg) →
      goRetry attempts timeoutMs a rem lastErr =
        (.error ("Request timeout after " ++ toString timeoutMs ++ "ms"), a + k + 1) := by
  intro k
  induction k with
  | zero =>
    intro a rem lastErr hk hb habort
    obtain ⟨msg, habort⟩ := habort
    cases rem with
    | zero => exact absurd hk (by omega)
    | succ r =>
      rw [Nat.add_zero] at habort ⊢
      simp [goRetry, habort]
  | succ k ih =>
    intro a rem lastErr hk hb habort
    cases rem with
    | zero => exact absurd hk (by omega)
    | succ r =>
      obtain ⟨nm, msg, hj, hnm⟩ := hb 0 (by omega)
      rw [Nat.add_zero] at hj
      have harr : a + (k + 1) = a + 1 + k := by omega
      rw [harr] at habort ⊢
      have hstep : goRetry attempts timeoutMs a (r + 1) lastErr =
          goRetry attempts timeoutMs (a + 1) r (some msg) := by
        simp [goRetry, hj, hnm]
      rw [hstep]
      exact ih (a + 1) r (some msg) (by omega)
        (fun j hjk => by
          have hx : a + 1 + j = a + (j + 1) := by omega
          rw [hx]
          exact hb (j + 1) (by omega))
        habort

/-- C5: whenever an attempt of fetchWithRetry (any attempt still inside the
configured budget, not only the final one) ends in an AbortError timeout, the
call fails at once with the timeout error and no further attempt is issued:
exactly k + 1 fetch calls happen when attempt k times out, however many
retries remain. -/
theorem claim_C5_timeout_never_retried (attempts : Nat → AttemptOutcome)
    (retries timeoutMs k : Nat) (hk : k ≤ retries)
    (hbefore : ∀ j, j < k → ∃ nm msg, attempts j = .failure nm msg ∧ nm ≠ "AbortError")
    (habort : ∃ msg, attempts k = .failure "AbortError" msg) :
    fetchWithRetry attempts retries timeoutMs =
      (.error ("Request timeout after " ++ toString timeoutMs ++ "ms"), k + 1) := by
  have h := goRetry_abort_lemma attempts timeoutMs k 0 (retries + 1) none (by omega)
    (fun j hj => by rw [Nat.zero_add]; exact hbefore j hj)
    (by rw [Nat.zero_add]; exact habort)
  rw [Nat.zero_add] at h
  exact h

/-- Witness for C5: the first attempt fails with a transient error, the
second attempt times out while a third configured attempt remains; the call
stops after two fetch calls with the timeout error. -/
theorem claim_C5_witness :
    fetchWithRetry
      (fun j => if j = 0 then AttemptOutcome.failure "TypeError" "network"
                else AttemptOutcome.failure "AbortError" "aborted") 2 15000 =
      (.error ("Request timeout after " ++ toString 15000 ++ "ms"), 1 + 1) := by
  refine claim_C5_timeout_never_retried _ 2 15000 1 (by omega) ?_ ?_
  · intro j hj
    have hx : j = 0 := by omega
    subst hx
    exact ⟨"TypeError", "network", rfl, by decide⟩
  · exact ⟨"aborted", rfl⟩

theorem goAccounts_ok_lemma (upstream : Nat → AccountsPage)
    (hok : ∀ p, (upstream p).ok = true) (hmore : ∀ p, hasMoreRows (upstream p) = true) :
    ∀ (rem page : Nat) (acc : List NormalizedAccount) (reqs : List PageRequest),
      goAccounts upstream page rem true acc reqs =
        (.ok (acc ++ expectedAccounts upstream page rem), reqs ++ (pageRange page rem).map reqFor) := by
  intro rem
  induction rem with
  | zero =>
    intro page acc reqs
    simp [goAccounts, expectedAccounts, pageRange]
  | succ n ih =>
    intro page acc reqs
    have hstep : goAccounts upstream page (n + 1) true acc reqs =
        goAccounts upstream (page + 1) n true (acc ++ pageAccounts (upstream page)) (reqs ++ [reqFor page]) := by
      simp [goAccounts, hok page, hmore page]
    rw [hstep, ih]
    simp [expectedAccounts, pageRange, List.append_assoc]

/-- C4: when the upstream reports has_more_rows true on every page (and every
page succeeds), fetchAllAccounts with maxPages at least 1 issues exactly
maxPages page requests — pages 1 through maxPages with row_count 100 and
start_index (page - 1) * 100 + 1 — and returns the accounts accumulated from
those pages with no error: the truncation at the page cap is silent. -/
theorem claim_C4_page_cap_silent_truncation (upstream : Nat → AccountsPage) (maxPages : Nat)
    (hmp : 1 ≤ maxPages)
    (hok : ∀ p, (upstream p).ok = true)
    (hmore : ∀ p, hasMoreRows (upstream p) = true) :
    fetchAllAccounts upstream maxPages =
      (.ok (expectedAccounts upstream 1 maxPages), (pageRange 1 maxPages).map reqFor) ∧
    ((pageRange 1 maxPages).map reqFor).length = maxPages := by
  constructor
  · have h := goAccounts_ok_lemma upstream hok hmore maxPages 1 [] []
    simpa [fetchAllAccounts] using h
  · rw [List.length_map, pageRange_length]

/-- Witness for C4: a constant upstream that always reports more rows and one
account per page is truncated silently after maxPages = 2 page requests. -/
theorem claim_C4_witness :
    fetchAllAccounts (fun _ => ⟨true, 200, "OK", some [⟨some "7", some "CADC", none, none⟩], some ⟨some true⟩⟩) 2 =
      (.ok (expectedAccounts (fun _ => ⟨true, 200, "OK", some [⟨some "7", some "CADC", none, none⟩], some ⟨some true⟩⟩) 1 2),
       (pageRange 1 2).map reqFor) ∧
    ((pageRange 1 2).map reqFor).length = 2 :=
  claim_C4_page_cap_silent_truncation _ 2 (by omega) (fun _ => rfl) (fun _ => rfl)

theorem goAccounts_err_lemma (upstream : Nat → AccountsPage) :
    ∀ (d page rem : Nat) (acc : List NormalizedAccount) (reqs : List PageRequest),
      d < rem →
      (∀ j, j < d → (upstream (page + j)).ok = true ∧ hasMoreRows (upstream (page + j)) = true) →
      (upstream (page + d)).ok = false →
      goAccounts upstream page rem true acc reqs =
        (.error ("ServiceDesk API returned " ++ toString (upstream (page + d)).status ++ ": " ++
                  (upstream (page + d)).statusText),
         reqs ++ (pageRange page (d + 1)).map reqFor) := by
  intro d
  induction d with
  | zero =>
    intro page rem acc reqs hd hb hfail
    cases rem with
    | zero => exact absurd hd (by omega)
    | succ r =>
      rw [Nat.add_zero] at hfail ⊢
      simp [goAccounts, hfail, pageRange]
  | succ d ih =>
    intro page rem acc reqs hd hb hfail
    cases rem with
    | zero => exact absurd hd (by omega)
    | succ r =>
      obtain ⟨hok, hmore⟩ := hb 0 (by omega)
      rw [Nat.add_zero] at hok hmore
      have harr : page + (d + 1) = page + 1 + d := by omega
      rw [harr] at hfail ⊢
      have hstep : goAccounts upstream page (r + 1) true acc reqs =
          goAccounts upstream (page + 1) r true (acc ++ pageAccounts (upstream page)) (reqs ++ [reqFor page]) := by
        simp [goAccounts, hok, hmore]
      rw [hstep, ih (page + 1) r _ _ (by omega)
        (fun j hj => by
          have hx : page + 1 + j = page + (j + 1) := by omega
          rw [hx]
          exact hb (j + 1) (by omega))
        hfail]
      simp [pageRange, List.append_assoc]

theorem goRequests_err_lemma (upstream : Nat → RequestsPage) :
    ∀ (d s fuel : Nat) (acc : List Val),
      d < fuel →
      (∀ j, j < d → (upstream (s + 100 * j)).ok = true ∧ hasMoreRowsReq (upstream (s + 100 * j)) = true) →
      (upstream (s + 100 * d)).ok = false →
      goRequests upstream s fuel true acc =
        some (.error ("Requests fetch failed: " ++ (upstream (s + 100 * d)).statusText)) := by
  intro d
  induction d with
  | zero =>
    intro s fuel acc hd hb hfail
    cases fuel with
    | zero => exact absurd hd (by omega)
    | succ f =>
      rw [Nat.mul_zero, Nat.add_zero] at hfail ⊢
      simp [goRequests, hfail]
  | succ d ih =>
    intro s fuel acc hd hb hfail
    cases fuel with
    | zero => exact absurd hd (by omega)
    | succ f =>
      obtain ⟨hok, hmore⟩ := hb 0 (by omega)
      rw [Nat.mul_zero, Nat.add_zero] at hok hmore
      have harr : s + 100 * (d + 1) = s + 100 + 100 * d := by omega
      rw [harr] at hfail ⊢
      have hstep : goRequests upstream s (f + 1) true acc =
          goRequests upstream (s + 100) f true (acc ++ (upstream s).requests.getD []) := by
        simp [goRequests, hok, hmore]
      rw [hstep]
      exact ih (s + 100) f _ (by omega)
        (fun j hj => by
          have hx : s + 100 + 100 * j = s + 100 * (j + 1) := by omega
          rw [hx]
          exact hb (j + 1) (by omega))
        hfail

/-- C6: a non-2xx upstream response is not an error for fetchWithRetry itself
— the response is returned as-is after a single attempt — and the fetcher
that called it fails at once: fetchAllAccounts throws the error carrying the
HTTP status and status text of the failing page, fetchAllRequests the error
carrying the status text, and in both cases the overall result is the error
alone, so no accounts or tickets accumulated from earlier pages reach the
caller: the fetch fails atomically. -/
theorem claim_C6_non2xx_atomic_failure :
    (∀ (attempts : Nat → AttemptOutcome) (retries timeoutMs : Nat) (r : HttpResponse),
       r.ok = false → attempts 0 = .success r →
       fetchWithRetry attempts retries timeoutMs = (.ok r, 1)) ∧
    (∀ (upstream : Nat → AccountsPage) (maxPages k : Nat),
       1 ≤ k → k ≤ maxPages →
       (∀ p, 1 ≤ p → p < k → (upstream p).ok = true ∧ hasMoreRows (upstream p) = true) →
       (upstream k).ok = false →
       fetchAllAccounts upstream maxPages =
         (.error ("ServiceDesk API returned " ++ toString (upstream k).status ++ ": " ++
                   (upstream k).statusText),
          (pageRange 1 k).map reqFor)) ∧
    (∀ (upstream : Nat → RequestsPage) (fuel k : Nat),
       1 ≤ k → k ≤ fuel →
       (∀ j, j < k - 1 → (upstream (1 + 100 * j)).ok = true ∧
          hasMoreRowsReq (upstream (1 + 100 * j)) = true) →
       (upstream (1 + 100 * (k - 1))).ok = false →
       fetchAllRequests upstream fuel =
         some (.error ("Requests fetch failed: " ++ (upstream (1 + 100 * (k - 1))).statusText))) := by
  refine ⟨?_, ?_, ?_⟩
  · intro attempts retries timeoutMs r hok h0
    simp [fetchWithRetry, goRetry, h0]
  · intro upstream maxPages k hk1 hkm hb hfail
    have hx : (1 : Nat) + (k - 1) = k := by omega
    have h := goAccounts_err_lemma upstream (k - 1) 1 maxPages [] [] (by omega)
      (fun j hj => by
        have hy : (1 : Nat) + j = j + 1 := by omega
        rw [hy]
        exact hb (j + 1) (by omega) (by omega))
      (by rw [hx]; exact hfail)
    rw [hx] at h
    have hz : k - 1 + 1 = k := by omega
    rw [hz] at h
    simpa [fetchAllAccounts] using h
  · intro upstream fuel k hk1 hkf hb hfail
    have h := goRequests_err_lemma upstream (k - 1) 1 fuel [] (by omega) hb hfail
    simpa [fetchAllRequests] using h

/-- Witness for C6: a 502 response comes straight back from the retry wrapper
after one attempt; an accounts fetch whose second page returns HTTP 500 fails
with that page's status line after two page requests; a requests fetch whose
second page returns HTTP 503 fails with its status text. -/
theorem claim_C6_witness :
    fetchWithRetry (fun _ => AttemptOutcome.success ⟨false, 502, "Bad Gateway"⟩) 2 15000 =
      (.ok ⟨false, 502, "Bad Gateway"⟩, 1) ∧
    fetchAllAccounts
      (fun p => if p = 1 then ⟨true, 200, "OK", some [], some ⟨some true⟩⟩
                else ⟨false, 500, "Internal Server Error", none, none⟩) 10 =
      (.error ("ServiceDesk API returned " ++ toString 500 ++ ": " ++ "Internal Server Error"),
       (pageRange 1 2).map reqFor) ∧
    fetchAllRequests
      (fun s => if s = 1 then ⟨true, 200, "OK", some [], some ⟨some true⟩⟩
                else ⟨false, 503, "Service Unavailable", none, none⟩) 5 =
      some (.error ("Requests fetch failed: " ++ "Service Unavailable")) := by
  refine ⟨claim_C6_non2xx_atomic_failure.1 _ 2 15000 _ rfl rfl, ?_, ?_⟩
  · exact claim_C6_non2xx_atomic_failure.2.1 _ 10 2 (by omega) (by omega)
      (fun p h1 h2 => by
        have hx : p = 1 := by omega
        subst hx
        exact ⟨rfl, rfl⟩)
      rfl
  · exact claim_C6_non2xx_atomic_failure.2.2 _ 5 2 (by omega) (by omega)
      (fun j hj => by
        have hx : j = 0 := by omega
        subst hx
        exact ⟨rfl, rfl⟩)
      rfl

/-- C9: any request to the accounts sync route whose x-admin-sync-key header
is absent or differs from the configured admin key gets HTTP 401 and causes
zero calls to the upstream accounts endpoint. -/
theorem claim_C9_sync_requires_admin_key (adminKey : String) (headerKey : Option String)
    (upstream : Nat → AccountsPage) (h : headerKey ≠ some adminKey) :
    accountsSyncHandler adminKey headerKey upstream = ⟨401, 0, none⟩ := by
  simp [accountsSyncHandler, h]

/-- Witness for C9: both a missing header and a wrong header value yield 401
with zero upstream calls, against an upstream that would happily answer. -/
theorem claim_C9_witness :
    accountsSyncHandler "0123456789abcdef0123456789abcdef" none
      (fun _ => ⟨true, 200, "OK", some [], some ⟨some false⟩⟩) = ⟨401, 0, none⟩ ∧
    accountsSyncHandler "0123456789abcdef0123456789abcdef" (some "wrong-key")
      (fun _ => ⟨true, 200, "OK", some [], some ⟨some false⟩⟩) = ⟨401, 0, none⟩ :=
  ⟨claim_C9_sync_requires_admin_key _ _ _ (by decide),
   claim_C9_sync_requires_admin_key _ _ _ (by decide)⟩

end ServicedeskProxy
